import Mathlib

/- Shallow embedding of `build_and_export_duplex.py`, a Blender scene-construction
and FBX-export script.  Pure functions model the script's helpers; the Blender
scene state is threaded explicitly through a `Scene` record.  Filesystem paths
are modelled as lists of components.  Numeric scene data uses `ℚ` (the script's
float literals are all decimal constants); the one angle computed through
`math.radians` is real-valued. -/

namespace BuildExport

/- ## Filesystem and path model -/

/-- A filesystem path, as a list of components (separator-joined in the host). -/
abbrev FsPath := List String

/-- `os.path.join(p, q)` for a directory `p` that ends in a separator and a
single file name `q`, which is the only way the script uses it. -/
def os_path_join (p : FsPath) (q : String) : FsPath := p ++ [q]

/-- `os.path.basename`: the last path component. -/
def os_path_basename (p : FsPath) : String := p.getLastD ""

/-- `bpy.path.abspath`: resolves a blend-file-relative path (starting `//`)
against the directory containing the blend file.  The script resolves the
relative path `//exports/`, whose component list is `["exports"]`. -/
def bpy_path_abspath (blendDir : FsPath) (rel : FsPath) : FsPath := blendDir ++ rel

/-- `os.path.isdir(p)` over a directory-set model of the filesystem. -/
def os_path_isdir (fs : List FsPath) (p : FsPath) : Bool := fs.contains p

/-- `os.makedirs(p, exist_ok)`: creates the directory when absent; when the
directory already exists it raises `FileExistsError` unless `exist_ok` is true. -/
def os_makedirs (fs : List FsPath) (p : FsPath) (exist_ok : Bool) :
    Except String (List FsPath) :=
  if fs.contains p then
    if exist_ok then Except.ok fs else Except.error "FileExistsError"
  else Except.ok (fs ++ [p])

/-- `ensure_dir` (nested in `export_fbx_and_zip`, source lines 219-220):
`if not os.path.isdir(p): os.makedirs(p, exist_ok=True)`. -/
def ensure_dir (fs : List FsPath) (p : FsPath) : Except String (List FsPath) :=
  if os_path_isdir fs p then Except.ok fs else os_makedirs fs p true

/- ## Module constants (source lines 22-29) -/

/-- `FT_TO_M = 0.3048` -/
def FT_TO_M : ℚ := 3048 / 10000

/-- `PLOT_W_FT = 50.0` -/
def PLOT_W_FT : ℚ := 50

/-- `PLOT_D_FT = 40.0` -/
def PLOT_D_FT : ℚ := 40

/-- `PLOT_W = PLOT_W_FT * FT_TO_M` (15.24 m) -/
def PLOT_W : ℚ := PLOT_W_FT * FT_TO_M

/-- `PLOT_D = PLOT_D_FT * FT_TO_M` (12.19 m) -/
def PLOT_D : ℚ := PLOT_D_FT * FT_TO_M

/-- `FLOOR_HEIGHT = 3.2` -/
def FLOOR_HEIGHT : ℚ := 32 / 10

/-- `SLAB_THICK = 0.20` -/
def SLAB_THICK : ℚ := 20 / 100

/- ## Shader node model -/

/-- A value stored in a shader-node input socket: a scalar or an RGBA color. -/
inductive SockVal
  | scalar (v : ℚ)
  | color (c : ℚ × ℚ × ℚ × ℚ)
deriving DecidableEq

/-- A shader node: its bpy type identifier, the input-socket default values the
script assigns (in assignment order), and the `sun_elevation` node property
(meaningful only for Sky Texture nodes; `0` otherwise). -/
structure ShaderNode where
  type : String
  inputs : List (String × SockVal)
  sun_elevation : ℝ

/-- A node link; nodes are referred to by their index in the node list, in
creation order. -/
structure NodeLink where
  fromNode : Nat
  fromSocket : String
  toNode : Nat
  toSocket : String
deriving DecidableEq

/-- A shader node tree (`material.node_tree` / `world.node_tree`). -/
structure NodeTree where
  nodes : List ShaderNode
  links : List NodeLink

/-- The empty node tree.  `for n in nt.nodes: nt.nodes.remove(n)` leaves the
tree in this state: removing a node in Blender also removes its links, and the
loop removes every node. -/
def emptyNodeTree : NodeTree := { nodes := [], links := [] }

/-- `nt.nodes.new(ty)`: appends a fresh node of the given type. -/
def addNode (nt : NodeTree) (ty : String) : NodeTree :=
  { nt with nodes := nt.nodes ++ [{ type := ty, inputs := [], sun_elevation := 0 }] }

/-- Replace or append a binding in an input-socket assignment list. -/
def upsertInput : List (String × SockVal) → String → SockVal → List (String × SockVal)
  | [], k, v => [(k, v)]
  | (k0, v0) :: rest, k, v =>
    if k0 = k then (k, v) :: rest else (k0, v0) :: upsertInput rest k v

/-- Apply a function at one index of a list, as in-place node mutation. -/
def modifyIdx : List α → Nat → (α → α) → List α
  | [], _, _ => []
  | a :: l, 0, f => f a :: l
  | a :: l, n + 1, f => a :: modifyIdx l n f

/-- `node.inputs[k].default_value = v` on the node at index `i`. -/
def setNodeInput (nt : NodeTree) (i : Nat) (k : String) (v : SockVal) : NodeTree :=
  { nt with nodes := modifyIdx nt.nodes i (fun n => { n with inputs := upsertInput n.inputs k v }) }

/-- Mutation of a node property on the node at index `i`. -/
def setNodeProp (nt : NodeTree) (i : Nat) (f : ShaderNode → ShaderNode) : NodeTree :=
  { nt with nodes := modifyIdx nt.nodes i f }

/-- `nt.links.new(nodes[a].outputs[sa], nodes[b].inputs[sb])`. -/
def addLink (nt : NodeTree) (a : Nat) (sa : String) (b : Nat) (sb : String) : NodeTree :=
  { nt with links := nt.links ++ [{ fromNode := a, fromSocket := sa, toNode := b, toSocket := sb }] }

/-- Python's `math.radians(x)`: degrees to radians. -/
noncomputable def mathRadians (x : ℚ) : ℝ := (x : ℝ) * Real.pi / 180

/- ## Name-keyed datablock collections (`bpy.data.materials`, `bpy.data.worlds`) -/

/-- `coll.get(n)`: the first datablock whose name is `n`. -/
def findByName (key : α → String) : List α → String → Option α
  | [], _ => none
  | x :: xs, n => if key x = n then some x else findByName key xs n

/-- Store a datablock under name `n`: replace the first datablock with that
name (in-place mutation of the block `get` returned), or append a fresh one
(`coll.new(n)`) when the name is absent. -/
def storeByName (key : α → String) : List α → String → α → List α
  | [], _, a => [a]
  | x :: xs, n, a => if key x = n then a :: xs else x :: storeByName key xs n a

/- ## Materials (`make_basic_material`, source lines 74-84) -/

/-- A material datablock. -/
structure Material where
  name : String
  use_nodes : Bool
  node_tree : NodeTree

/-- `bpy.data.materials.new(name)`: a fresh material (nodes not yet enabled). -/
def newMaterial (name : String) : Material :=
  { name := name, use_nodes := false, node_tree := emptyNodeTree }

/-- `make_basic_material(name, base_color, metallic, roughness)`, source lines
74-84.  The source's defaults are `base_color=(0.8,0.8,0.8,1.0)`,
`metallic=0.0`, `roughness=0.5`; every call site passes all arguments, so they
are plain parameters here.  Models
`mat = bpy.data.materials.get(name) or bpy.data.materials.new(name)`, then
`use_nodes = True`, removal of every node, creation of an output node and a
principled BSDF, the three input assignments, and the BSDF-to-surface link.
Returns the updated `bpy.data.materials` list and the material. -/
def make_basic_material (mats : List Material) (name : String)
    (base_color : ℚ × ℚ × ℚ × ℚ) (metallic : ℚ) (roughness : ℚ) :
    List Material × Material :=
  let mat0 := (findByName Material.name mats name).getD (newMaterial name)
  let mat1 := { mat0 with use_nodes := true }
  let mat2 := { mat1 with node_tree := emptyNodeTree }
  let mat3 := { mat2 with node_tree := addNode mat2.node_tree "ShaderNodeOutputMaterial" }
  let mat4 := { mat3 with node_tree := addNode mat3.node_tree "ShaderNodeBsdfPrincipled" }
  let mat5 := { mat4 with node_tree := setNodeInput mat4.node_tree 1 "Base Color" (SockVal.color base_color) }
  let mat6 := { mat5 with node_tree := setNodeInput mat5.node_tree 1 "Metallic" (SockVal.scalar metallic) }
  let mat7 := { mat6 with node_tree := setNodeInput mat6.node_tree 1 "Roughness" (SockVal.scalar roughness) }
  let mat8 := { mat7 with node_tree := addLink mat7.node_tree 1 "BSDF" 0 "Surface" }
  (storeByName Material.name mats name mat8, mat8)

/- ## Objects and `assign_material` (source lines 86-89) -/

/-- Object data (`obj.data`): its material-slot list, when the data type has a
`materials` attribute (`none` models data without that attribute). -/
structure ObjData where
  materials : Option (List String)
deriving DecidableEq

/-- A scene object; `data` is `none` when the object has no data. -/
structure BObject where
  name : String
  data : Option ObjData
deriving DecidableEq

/-- `assign_material(obj, mat)`, source lines 86-89:
`if obj.data and hasattr(obj.data, "materials")` then either append the
material (empty slot list) or overwrite slot 0. -/
def assign_material (obj : BObject) (mat : String) : BObject :=
  match obj.data with
  | none => obj
  | some dat =>
    match dat.materials with
    | none => obj
    | some ms =>
      if ms.length = 0 then { obj with data := some { dat with materials := some [mat] } }
      else { obj with data := some { dat with materials := some (ms.set 0 mat) } }

/- ## Collections (`ensure_collection`, source lines 31-39) -/

/-- The state of `bpy.data.collections` together with the parent-child links
made by the script (`parent.children.link` / scene-root `children.link`). -/
structure BpyCollections where
  names : List String
  links : List (String × String)
deriving DecidableEq

/-- The name of the scene's master collection (`bpy.context.scene.collection`). -/
def sceneRootName : String := "Scene Collection"

/-- `ensure_collection(name, parent)`, source lines 31-39: reuse the existing
collection of that name, otherwise create one and link it to `parent` when
given, else to the scene root collection.  Returns the updated state and the
(name of the) collection. -/
def ensure_collection (cols : BpyCollections) (name : String) (parent : Option String) :
    BpyCollections × String :=
  if name ∈ cols.names then (cols, name)
  else
    match parent with
    | some p =>
      ({ names := cols.names ++ [name], links := cols.links ++ [(p, name)] }, name)
    | none =>
      ({ names := cols.names ++ [name], links := cols.links ++ [(sceneRootName, name)] }, name)

/- ## Bezier curves (`add_bezier_path`, source lines 59-70) -/

/-- A point coordinate triple. -/
abbrev Pt3 := ℚ × ℚ × ℚ

/-- Bezier handle types. -/
inductive HandleType
  | AUTO
  | VECTOR
  | ALIGNED
  | FREE
deriving DecidableEq

/-- A Bezier control point: coordinates and handle types. -/
structure BezierPoint where
  co : Pt3
  handle_left_type : HandleType
  handle_right_type : HandleType
deriving DecidableEq

/-- The control point a fresh Bezier spline starts with / that
`bezier_points.add` appends (its values are overwritten before use). -/
def defaultBezierPoint : BezierPoint :=
  { co := (0, 0, 0), handle_left_type := HandleType.FREE, handle_right_type := HandleType.FREE }

/-- Spline types. -/
inductive SplineType
  | BEZIER
  | NURBS
  | POLY
deriving DecidableEq

/-- A spline of a curve datablock. -/
structure Spline where
  type : SplineType
  bezier_points : List BezierPoint
deriving DecidableEq

/-- `curve_data.splines.new('BEZIER')`: a Bezier spline with one control point. -/
def newBezierSpline : Spline :=
  { type := SplineType.BEZIER, bezier_points := [defaultBezierPoint] }

/-- A curve datablock. -/
structure CurveData where
  name : String
  dimensions : String
  splines : List Spline
  path_duration : Nat
  use_cyclic_u : Bool
deriving DecidableEq

/-- A curve object, with the collection it was linked into. -/
structure CurveObj where
  name : String
  data : CurveData
  col : String
deriving DecidableEq

/-- Python's `enumerate`, starting at index `n`. -/
def pyEnumerate (n : Nat) : List α → List (Nat × α)
  | [] => []
  | a :: l => (n, a) :: pyEnumerate (n + 1) l

/-- The control-point value the loop body of `add_bezier_path` writes:
`bp.co = (x,y,z)` and both handle types set to AUTO. -/
def mkAutoPoint (p : Pt3) : BezierPoint :=
  { co := p, handle_left_type := HandleType.AUTO, handle_right_type := HandleType.AUTO }

/-- `add_bezier_path(name, points, col)`, source lines 59-70: a fresh 3D curve
with one Bezier spline; `spline.bezier_points.add(len(points)-1)` grows the
single initial point to `len(points)` points, and the loop overwrites point `i`
with coordinates `points[i]` and AUTO handles.  The object is linked into `col`
when given, else into the scene root collection. -/
def add_bezier_path (name : String) (points : List Pt3) (col : Option String) : CurveObj :=
  let spline0 := newBezierSpline
  let spline1 := { spline0 with bezier_points := spline0.bezier_points ++ List.replicate (points.length - 1) defaultBezierPoint }
  let spline2 := { spline1 with bezier_points := (pyEnumerate 0 points).foldl (fun bps ip => bps.set ip.1 (mkAutoPoint ip.2)) spline1.bezier_points }
  let curve_data : CurveData :=
    { name := name, dimensions := "3D", splines := [spline2], path_duration := 100, use_cyclic_u := false }
  { name := name, data := curve_data, col := col.getD sceneRootName }

/- ## Cameras, constraints, markers, world -/

/-- A camera-object constraint (`cam.constraints.new(type='FOLLOW_PATH')` plus
the field assignments of `follow_path`; `animated` records that
`bpy.ops.object.constraint_followpath_path_animate` ran on it). -/
structure Constraint where
  type : String
  target : String
  use_fixed_location : Bool
  forward_axis : String
  up_axis : String
  animated : Bool
deriving DecidableEq

/-- A camera object. -/
structure CamObj where
  name : String
  lens : ℚ
  location : Pt3
  constraints : List Constraint
  col : String
deriving DecidableEq

/-- A timeline marker. -/
structure TimelineMarker where
  name : String
  frame : Int
deriving DecidableEq

/-- A world datablock. -/
structure World where
  name : String
  use_nodes : Bool
  node_tree : NodeTree

/-- `bpy.data.worlds.new(name)`. -/
def newWorld (name : String) : World :=
  { name := name, use_nodes := false, node_tree := emptyNodeTree }

/- ## The scene state -/

/-- `scene.render` settings touched by the script (every field of this record
is assigned by `build_scene`). -/
structure RenderSettings where
  fps : Nat
  file_format : String
  ffmpeg_format : String
  ffmpeg_codec : String
  ffmpeg_constant_rate_factor : String
  ffmpeg_preset : String
  resolution_x : Nat
  resolution_y : Nat
  resolution_percentage : Nat
  engine : String
  use_motion_blur : Bool
  motion_blur_shutter : ℚ
  filepath : String

/-- `scene.cycles` settings touched by the script. -/
structure CyclesSettings where
  device : String
  samples : Nat
  use_denoising : Bool

/-- The Blender scene state the script manipulates. -/
structure Scene where
  render : RenderSettings
  cycles : CyclesSettings
  frame_start : Int
  frame_end : Int
  frame_current : Int
  display_device : String
  view_transform : String
  view_look : String
  collections : BpyCollections
  materials : List Material
  worlds : List World
  world : Option String
  curves : List CurveObj
  cameras : List CamObj
  timeline_markers : List TimelineMarker
  camera : Option String
  active_object : Option String

/-- `set_active_camera(cam)`, source line 72: `bpy.context.scene.camera = cam`. -/
def set_active_camera (s : Scene) (camName : String) : Scene :=
  { s with camera := some camName }

/-- The world value produced by source lines 148-155:
`world = bpy.data.worlds.get("World") or bpy.data.worlds.new("World")`, nodes
enabled, every pre-existing node removed, then a World Output node, a
Background node and a Sky Texture node created in that order, the sky sun
elevation set to `math.radians(45)`, the background strength to `1.2`, and the
two links Sky Color to Background Color and Background to Output Surface. -/
noncomputable def buildWorldValue (worlds : List World) : World :=
  let w0 := (findByName World.name worlds "World").getD (newWorld "World")
  let w1 := { w0 with use_nodes := true }
  let w2 := { w1 with node_tree := emptyNodeTree }
  let w3 := { w2 with node_tree := addNode w2.node_tree "ShaderNodeOutputWorld" }
  let w4 := { w3 with node_tree := addNode w3.node_tree "ShaderNodeBackground" }
  let w5 := { w4 with node_tree := addNode w4.node_tree "ShaderNodeTexSky" }
  let w6 := { w5 with node_tree := setNodeProp w5.node_tree 2 (fun n => { n with sun_elevation := mathRadians 45 }) }
  let w7 := { w6 with node_tree := setNodeInput w6.node_tree 1 "Strength" (SockVal.scalar (12 / 10)) }
  let w8 := { w7 with node_tree := addLink w7.node_tree 2 "Color" 1 "Color" }
  { w8 with node_tree := addLink w8.node_tree 1 "Background" 0 "Surface" }

/-- `center = Vector((PLOT_W/2, PLOT_D/2, FLOOR_HEIGHT + 2.0))`, source line 169. -/
def center : Pt3 := (PLOT_W / 2, PLOT_D / 2, FLOOR_HEIGHT + 2)

/-- `rad = max(PLOT_W, PLOT_D) * 0.9`, source line 170. -/
def rad : ℚ := max PLOT_W PLOT_D * (9 / 10)

/-- `walk_pts`, source lines 158-166. -/
def walk_pts : List Pt3 :=
  [ (PLOT_W * (1 / 10), 8 / 10, 15 / 10),
    (PLOT_W * (2 / 10), PLOT_D * (2 / 10), 16 / 10),
    (PLOT_W * (4 / 10), PLOT_D * (6 / 10), FLOOR_HEIGHT + 16 / 10),
    (PLOT_W * (6 / 10), PLOT_D * (5 / 10), FLOOR_HEIGHT + 18 / 10),
    (PLOT_W * (45 / 100), PLOT_D * (4 / 10), 2 * (FLOOR_HEIGHT + SLAB_THICK) + 18 / 10),
    (PLOT_W * (55 / 100), PLOT_D * (3 / 10), 2 * (FLOOR_HEIGHT + SLAB_THICK) + 18 / 10),
    (PLOT_W + 5, PLOT_D * (5 / 10), FLOOR_HEIGHT + 2) ]

/-- `aero_pts`, source lines 171-177. -/
def aero_pts : List Pt3 :=
  [ (center.1 + rad, center.2.1, center.2.2),
    (center.1, center.2.1 + rad, center.2.2),
    (center.1 - rad, center.2.1, center.2.2),
    (center.1, center.2.1 - rad, center.2.2),
    (center.1 + rad, center.2.1, center.2.2) ]

/-- `add_camera(name, loc, lens, col)`, nested def at source lines 182-186: a
fresh camera object linked into `col` when given, else into the scene root. -/
def add_camera (name : String) (loc : Pt3) (lens : ℚ) (col : Option String) : CamObj :=
  { name := name, lens := lens, location := loc, constraints := [], col := col.getD sceneRootName }

/-- The constraint value `follow_path` (source lines 191-196) leaves on the
camera: a FOLLOW_PATH constraint targeting `target`, fixed location, forward
axis FORWARD_Y, up axis UP_Z, animated by the follow-path operator. -/
def followPathConstraint (target : String) : Constraint :=
  { type := "FOLLOW_PATH", target := target, use_fixed_location := true,
    forward_axis := "FORWARD_Y", up_axis := "UP_Z", animated := true }

/-- `bpy.ops.marker.add()`: appends a marker at the current frame (Blender
auto-names it after the frame); the script renames it right away. -/
def markerAdd (frameCurrent : Int) : TimelineMarker :=
  { name := "F_" ++ toString frameCurrent, frame := frameCurrent }

/-- Apply a function to the last element of a list (`timeline_markers[-1]`). -/
def modifyLast (f : α → α) : List α → List α
  | [] => []
  | [a] => [f a]
  | a :: b :: l => a :: modifyLast f (b :: l)

set_option maxHeartbeats 1600000 in
/-- `build_scene()`, source lines 101-206.  The body is taken to be the whole
indented block of lines 102-206; line 124 (`root = scene.collection`) is
dedented to column 0 in the source, which is the syntax defect modelled
separately by the logical-line model below.  Mutations made to a datablock
after it is linked into the scene (cyclic flag, path duration, constraints)
are folded into the object values before they are appended; the script never
reads the scene between those mutations, so the resulting state is the same. -/
noncomputable def build_scene (s0 : Scene) : Scene :=
  -- lines 104-123: render / color / fps / output settings
  let s1 : Scene := { s0 with
    render := {
      fps := 30, file_format := "FFMPEG", ffmpeg_format := "MPEG4",
      ffmpeg_codec := "H264", ffmpeg_constant_rate_factor := "HIGH",
      ffmpeg_preset := "GOOD", resolution_x := 1920, resolution_y := 1080,
      resolution_percentage := 100, engine := "CYCLES", use_motion_blur := true,
      motion_blur_shutter := 1 / 2, filepath := "//renders/walkthrough_preview.mp4" },
    cycles := { device := "CPU", samples := 256, use_denoising := true },
    frame_start := 0, frame_end := 600,
    display_device := "sRGB", view_transform := "Filmic",
    view_look := "Medium High Contrast" }
  -- lines 124-133: collections, all linked under the scene root collection
  let r1 := ensure_collection s1.collections "Ground_Floor" (some sceneRootName)
  let r2 := ensure_collection r1.1 "First_Floor" (some sceneRootName)
  let r3 := ensure_collection r2.1 "Second_Floor" (some sceneRootName)
  let r4 := ensure_collection r3.1 "Exterior_Facade" (some sceneRootName)
  let r5 := ensure_collection r4.1 "Furniture" (some sceneRootName)
  let r6 := ensure_collection r5.1 "Landscape" (some sceneRootName)
  let r7 := ensure_collection r6.1 "Cameras_Walkthrough" (some sceneRootName)
  let r8 := ensure_collection r7.1 "Cameras_Aerial" (some sceneRootName)
  let r9 := ensure_collection r8.1 "Renders" (some sceneRootName)
  let col_cam_walk := r7.2
  let col_cam_aero := r8.2
  let s2 := { s1 with collections := r9.1 }
  -- lines 136-141: materials
  let q1 := make_basic_material s2.materials "Wall_Paint" (92 / 100, 92 / 100, 92 / 100, 1) 0 (6 / 10)
  let q2 := make_basic_material q1.1 "Glass_Simple" (8 / 10, 9 / 10, 1, 5 / 100) 0 (5 / 100)
  let q3 := make_basic_material q2.1 "Stone_Cladding" (1 / 2, 1 / 2, 1 / 2, 1) 0 (9 / 10)
  let q4 := make_basic_material q3.1 "Wood" (1 / 2, 35 / 100, 2 / 10, 1) 0 (1 / 2)
  let q5 := make_basic_material q4.1 "Grass" (3 / 10, 1 / 2, 3 / 10, 1) 0 (9 / 10)
  let q6 := make_basic_material q5.1 "Driveway" (1 / 10, 1 / 10, 1 / 10, 1) 0 (8 / 10)
  let s3 := { s2 with materials := q6.1 }
  -- lines 148-155: world (get-or-new "World", rebuild its node tree)
  let s4 := { s3 with
    worlds := storeByName World.name s3.worlds "World" (buildWorldValue s3.worlds),
    world := some "World" }
  -- lines 157-179: camera paths; line 179 sets the cyclic flag, lines 194/198-199
  -- set each path duration (600 and 450 frames)
  let walk_curve0 := add_bezier_path "Walkthrough_Path" walk_pts (some col_cam_walk)
  let aero_curve0 := add_bezier_path "Aerial_Spin_Path" aero_pts (some col_cam_aero)
  let walk_curve := { walk_curve0 with data := { walk_curve0.data with path_duration := 600 } }
  let aero_curve := { aero_curve0 with data := { aero_curve0.data with use_cyclic_u := true, path_duration := 450 } }
  let s5 := { s4 with curves := s4.curves ++ [walk_curve, aero_curve] }
  -- lines 182-199: cameras and their follow-path constraints
  let cam_walk0 := add_camera "Camera_Walkthrough" (PLOT_W * (1 / 10), 8 / 10, 16 / 10) 18 (some col_cam_walk)
  let cam_aero0 := add_camera "Camera_Aerial" (center.1 + rad, center.2.1, center.2.2) 35 (some col_cam_aero)
  let cam_walk := { cam_walk0 with constraints := cam_walk0.constraints ++ [followPathConstraint "Walkthrough_Path"] }
  let cam_aero := { cam_aero0 with constraints := cam_aero0.constraints ++ [followPathConstraint "Aerial_Spin_Path"] }
  let s6 := { s5 with cameras := s5.cameras ++ [cam_walk, cam_aero],
                      active_object := some "Camera_Aerial" }
  -- line 200: set_active_camera(cam_walk)
  let s7 := set_active_camera s6 "Camera_Walkthrough"
  -- lines 203-204: timeline markers
  let s8 := { s7 with timeline_markers := s7.timeline_markers ++ [markerAdd s7.frame_current] }
  let s9 := { s8 with timeline_markers := modifyLast (fun m => { m with name := "Walkthrough", frame := 0 }) s8.timeline_markers }
  let s10 := { s9 with timeline_markers := s9.timeline_markers ++ [markerAdd s9.frame_current] }
  { s10 with timeline_markers := modifyLast (fun m => { m with name := "Aerial Spin", frame := 0 }) s10.timeline_markers }

/- ## Export (`export_fbx_and_zip`, source lines 212-237) -/

/-- The side-effecting operations `export_fbx_and_zip` performs, in order. -/
inductive ExportEvent
  | ensureDir (p : FsPath)
  | selectAll
  | exportFbx (filepath : FsPath) (use_selection : Bool)
  | writeFile (path : FsPath) (content : String)
  | zipCreate (path : FsPath)
  | zipAdd (zip : FsPath) (src : FsPath) (arcname : String)
deriving DecidableEq

/-- `EXPORT_DIR = bpy.path.abspath("//exports/")`, source line 213. -/
def EXPORT_DIR (blendDir : FsPath) : FsPath := bpy_path_abspath blendDir ["exports"]

/-- `FULL_FBX`, source line 214. -/
def FULL_FBX (blendDir : FsPath) : FsPath := os_path_join (EXPORT_DIR blendDir) "Duplex_House.fbx"

/-- `LITE_FBX`, source line 215 (computed and never used again). -/
def LITE_FBX (blendDir : FsPath) : FsPath := os_path_join (EXPORT_DIR blendDir) "Duplex_House_Lite.fbx"

/-- `ZIP_PATH`, source line 216. -/
def ZIP_PATH (blendDir : FsPath) : FsPath := os_path_join (EXPORT_DIR blendDir) "Duplex_House_FBX.zip"

/-- `README_PATH`, source line 217. -/
def README_PATH (blendDir : FsPath) : FsPath := os_path_join (EXPORT_DIR blendDir) "README_Import.txt"

/-- The README text, source lines 229-231: the two `f.write` payloads, written
to one file opened once. -/
def readmeContent : String :=
  "Duplex House FBX Export\n=======================\n"
    ++ "Files:\n- Duplex_House.fbx (FULL)\n- Duplex_House_Lite.fbx (LITE)\n"

/-- `export_fbx_and_zip()`, source lines 212-237, as its ordered list of
side-effecting operations: ensure the export directory, select all objects,
export the FULL fbx, write the README, create the zip and add the FULL fbx and
README to it under their base names. -/
def export_fbx_and_zip (blendDir : FsPath) : List ExportEvent :=
  [ ExportEvent.ensureDir (EXPORT_DIR blendDir),
    ExportEvent.selectAll,
    ExportEvent.exportFbx (FULL_FBX blendDir) true,
    ExportEvent.writeFile (README_PATH blendDir) readmeContent,
    ExportEvent.zipCreate (ZIP_PATH blendDir),
    ExportEvent.zipAdd (ZIP_PATH blendDir) (FULL_FBX blendDir) (os_path_basename (FULL_FBX blendDir)),
    ExportEvent.zipAdd (ZIP_PATH blendDir) (README_PATH blendDir) (os_path_basename (README_PATH blendDir)) ]

/-- The fbx-export calls of a trace: (filepath, use_selection). -/
def fbxExports (tr : List ExportEvent) : List (FsPath × Bool) :=
  tr.filterMap fun e =>
    match e with
    | ExportEvent.exportFbx p u => some (p, u)
    | _ => none

/-- The zip entries of a trace: (source file, archive name). -/
def zipEntries (tr : List ExportEvent) : List (FsPath × String) :=
  tr.filterMap fun e =>
    match e with
    | ExportEvent.zipAdd _ src arc => some (src, arc)
    | _ => none

/-- The files written by a trace: (path, content). -/
def writtenFiles (tr : List ExportEvent) : List (FsPath × String) :=
  tr.filterMap fun e =>
    match e with
    | ExportEvent.writeFile p c => some (p, c)
    | _ => none

/-- Recognizer for the ensure-directory event. -/
def isEnsureDirEvent : ExportEvent → Bool
  | ExportEvent.ensureDir _ => true
  | _ => false

/-- Recognizer for the fbx-export event. -/
def isExportFbxEvent : ExportEvent → Bool
  | ExportEvent.exportFbx _ _ => true
  | _ => false

/-- Recognizer for the zip-creation event. -/
def isZipCreateEvent : ExportEvent → Bool
  | ExportEvent.zipCreate _ => true
  | _ => false

/- ## Logical-line model of the source file and Python's indentation rule -/

/-- One logical line of the source file: its physical line number, its
indentation column, whether it is a compound-statement header (ends with a
colon and so opens an indented block), and whether it is a
`try`/`except`/`finally` header. -/
structure SrcLine where
  phys : Nat
  indent : Nat
  opensBlock : Bool
  tryHeader : Bool
deriving DecidableEq

/-- Shorthand constructor for a logical line that is not a try header. -/
def L (phys indent : Nat) (opensBlock : Bool) : SrcLine :=
  { phys := phys, indent := indent, opensBlock := opensBlock, tryHeader := false }

/-- Pop the indentation stack down to column `i`; `none` when `i` matches no
enclosing indentation level (Python's "unindent does not match any outer
indentation level"). -/
def dedentTo : List Nat → Nat → Option (List Nat)
  | [], _ => none
  | t :: rest, i =>
    if i = t then some (t :: rest)
    else if i < t then dedentTo rest i
    else none

/-- One step of Python's indentation rule.  State: the stack of open
indentation levels and whether the previous logical line opened a block.
Errors (with the offending physical line): an indent when no block was opened,
a missing indent after a block opener, and a dedent to a level not on the
stack. -/
def indentStep (stack : List Nat) (expectIndent : Bool) (l : SrcLine) :
    Except Nat (List Nat × Bool) :=
  let top := stack.headD 0
  if expectIndent then
    if top < l.indent then Except.ok (l.indent :: stack, l.opensBlock)
    else Except.error l.phys
  else if top < l.indent then Except.error l.phys
  else
    match dedentTo stack l.indent with
    | some stack2 => Except.ok (stack2, l.opensBlock)
    | none => Except.error l.phys

/-- Run the indentation rule over a list of logical lines. -/
def checkLines : List SrcLine → List Nat → Bool → Except Nat Unit
  | [], _, _ => Except.ok ()
  | l :: rest, stack, expectIndent =>
    match indentStep stack expectIndent l with
    | Except.ok st => checkLines rest st.1 st.2
    | Except.error n => Except.error n

/-- Whether a Python module tokenizes: the indentation rule over all its
logical lines, starting at module level. -/
def moduleIndentCheck (ls : List SrcLine) : Except Nat Unit :=
  checkLines ls [0] false

/-- Is an `Except` a success? -/
def exceptOk : Except ε α → Bool
  | Except.ok _ => true
  | Except.error _ => false

/-- The logical lines of `build_and_export_duplex.py`: every non-blank,
non-comment line, with bracket-continuation lines (the `walk_pts` and
`aero_pts` literals, lines 158-166 and 171-177) folded into their first
physical line.  Recorded per line: indentation column and whether the line
ends with a colon (inline compound statements such as line 72 or line 220 do
not open a block).  No line of the file is a `try`/`except`/`finally` header. -/
def srcLogicalLines : List SrcLine :=
  [ L 15 0 false, L 16 0 false,
    L 22 0 false, L 23 0 false, L 24 0 false, L 25 0 false, L 26 0 false,
    L 28 0 false, L 29 0 false,
    L 31 0 true, L 32 4 false, L 33 4 true, L 34 8 false, L 35 8 true,
    L 36 12 false, L 37 8 true, L 38 12 false, L 39 4 false,
    L 41 0 true, L 42 4 false, L 43 4 false, L 44 4 false, L 45 4 false,
    L 46 4 true, L 47 8 false, L 48 4 false,
    L 50 0 true, L 51 4 false, L 52 4 false, L 53 4 false, L 54 4 false,
    L 55 4 true, L 56 8 false, L 57 4 false,
    L 59 0 true, L 60 4 false, L 61 4 false, L 62 4 false, L 63 4 false,
    L 64 4 true, L 65 8 false, L 66 8 false, L 67 8 false, L 68 4 false,
    L 69 4 false, L 70 4 false,
    L 72 0 false,
    L 74 0 true, L 75 4 false, L 76 4 false, L 77 4 false, L 78 4 false,
    L 79 4 false, L 80 4 false, L 81 4 false, L 82 4 false, L 83 4 false,
    L 84 4 false,
    L 86 0 true, L 87 4 true, L 88 8 false, L 89 8 false,
    L 91 0 true, L 92 4 false, L 93 4 false, L 94 4 false, L 95 4 false,
    L 96 4 false, L 97 4 true, L 98 8 false, L 99 4 false,
    L 101 0 true, L 102 4 false,
    L 104 4 false, L 105 4 false, L 106 4 false, L 107 4 false, L 108 4 false,
    L 109 4 false, L 110 4 false, L 111 4 false, L 112 4 false, L 113 4 false,
    L 114 4 false, L 115 4 false, L 116 4 false, L 117 4 false, L 118 4 false,
    L 119 4 false, L 120 4 false, L 121 4 false, L 122 4 false, L 123 4 false,
    L 124 0 false,
    L 125 4 false, L 126 4 false, L 127 4 false, L 128 4 false, L 129 4 false,
    L 130 4 false, L 131 4 false, L 132 4 false, L 133 4 false,
    L 136 4 false, L 137 4 false, L 138 4 false, L 139 4 false, L 140 4 false,
    L 141 4 false,
    L 148 4 false, L 149 4 false, L 150 4 false, L 151 4 false, L 152 4 false,
    L 153 4 false, L 154 4 false, L 155 4 false,
    L 158 4 false, L 167 4 false, L 169 4 false, L 170 4 false, L 171 4 false,
    L 178 4 false, L 179 4 false,
    L 182 4 true, L 183 8 false, L 184 8 false, L 185 8 false, L 186 8 false,
    L 188 4 false, L 189 4 false,
    L 191 4 true, L 192 8 false, L 193 8 false, L 194 8 false, L 195 8 false,
    L 196 8 false,
    L 198 4 false, L 199 4 false, L 200 4 false,
    L 203 4 false, L 204 4 false, L 206 4 false,
    L 212 0 true, L 213 4 false, L 214 4 false, L 215 4 false, L 216 4 false,
    L 217 4 false,
    L 219 4 true, L 220 8 false, L 222 4 false, L 225 4 false, L 226 4 false,
    L 229 4 true, L 230 8 false, L 231 8 false,
    L 233 4 true, L 234 8 false, L 235 8 false, L 237 4 false,
    L 242 0 true, L 243 4 false, L 244 4 false, L 245 4 false ]

/-- Running the script: Python first compiles the whole module; only when the
module tokenizes and parses does the `__main__` block (source lines 242-245)
run `build_scene()` and then `export_fbx_and_zip()`. -/
noncomputable def runScript (s0 : Scene) (blendDir : FsPath) :
    Option (Scene × List ExportEvent) :=
  match moduleIndentCheck srcLogicalLines with
  | Except.error _ => none
  | Except.ok _ => some (build_scene s0, export_fbx_and_zip blendDir)

/- ## Helper lemmas -/

theorem findByName_key {α : Type} {key : α → String} :
    ∀ {l : List α} {n : String} {a : α}, findByName key l n = some a → key a = n
  | [], _, _, h => by simp [findByName] at h
  | x :: xs, n, a, h => by
    by_cases hx : key x = n
    · rw [findByName, if_pos hx] at h
      exact Option.some.inj h ▸ hx
    · rw [findByName, if_neg hx] at h
      exact findByName_key h

theorem findByName_storeByName {α : Type} {key : α → String} :
    ∀ (l : List α) (n : String) (a : α), key a = n →
      findByName key (storeByName key l n a) n = some a
  | [], n, a, h => by simp [storeByName, findByName, h]
  | x :: xs, n, a, h => by
    by_cases hx : key x = n
    · simp [storeByName, hx, findByName, h]
    · simp only [storeByName, if_neg hx, findByName]
      exact findByName_storeByName xs n a h

theorem storeByName_map_key {α : Type} {key : α → String} :
    ∀ (l : List α) (n : String) (a : α), key a = n →
      (findByName key l n).isSome = true →
      (storeByName key l n a).map key = l.map key
  | [], n, a, h, hs => by simp [findByName] at hs
  | x :: xs, n, a, h, hs => by
    by_cases hx : key x = n
    · simp [storeByName, hx, h]
    · rw [findByName, if_neg hx] at hs
      simp [storeByName, hx, storeByName_map_key xs n a h hs]

theorem storeByName_of_none {α : Type} {key : α → String} :
    ∀ (l : List α) (n : String) (a : α), findByName key l n = none →
      storeByName key l n a = l ++ [a]
  | [], _, _, _ => rfl
  | x :: xs, n, a, h => by
    by_cases hx : key x = n
    · rw [findByName, if_pos hx] at h
      exact absurd h (by simp)
    · rw [findByName, if_neg hx] at h
      simp [storeByName, hx, storeByName_of_none xs n a h]

theorem join_ne_of_ne (p : FsPath) {a b : String} (h : a ≠ b) :
    os_path_join p a ≠ os_path_join p b := by
  intro he
  exact h (by simpa using List.append_cancel_left he)

/- ## Claim theorems -/

/-- Claim C1: the source file is not a syntactically valid Python program: the
statement at line 124 is dedented to column 0 inside the body of `build_scene`
while the statements after it remain indented (line 125 is at column 4), so
tokenizing the module fails at line 125 with an IndentationError; loading or
running the script therefore executes nothing, and in particular neither
`build_scene` nor `export_fbx_and_zip` is ever entered. -/
theorem script_not_valid_python :
    moduleIndentCheck srcLogicalLines = Except.error 125 ∧
    (srcLogicalLines.find? (fun l => l.phys == 124)).map SrcLine.indent = some 0 ∧
    (srcLogicalLines.find? (fun l => l.phys == 125)).map SrcLine.indent = some 4 ∧
    ∀ (s0 : Scene) (blendDir : FsPath), runScript s0 blendDir = none := by
  exact ⟨rfl, rfl, rfl, fun s0 d => rfl⟩

/-- Claim C2 (code-bug record): the module's indentation error means no run of
the script ever reaches `build_scene` or `export_fbx_and_zip`, contradicting
the claimed build-then-export-then-archive run; in the export step as written,
the single FBX export does precede the creation of the zip archive, and the
archived FBX entry is exactly the file path the export produced. -/
theorem module_never_runs_export_order (blendDir : FsPath) :
    exceptOk (moduleIndentCheck srcLogicalLines) = false ∧
    List.findIdx isExportFbxEvent (export_fbx_and_zip blendDir) = 2 ∧
    List.findIdx isZipCreateEvent (export_fbx_and_zip blendDir) = 4 ∧
    List.findIdx isExportFbxEvent (export_fbx_and_zip blendDir) <
      List.findIdx isZipCreateEvent (export_fbx_and_zip blendDir) ∧
    fbxExports (export_fbx_and_zip blendDir) = [(FULL_FBX blendDir, true)] ∧
    (FULL_FBX blendDir, os_path_basename (FULL_FBX blendDir)) ∈
      zipEntries (export_fbx_and_zip blendDir) := by
  have h2 : List.findIdx isExportFbxEvent (export_fbx_and_zip blendDir) = 2 := rfl
  have h4 : List.findIdx isZipCreateEvent (export_fbx_and_zip blendDir) = 4 := rfl
  refine ⟨rfl, h2, h4, ?_, rfl, List.Mem.head _⟩
  rw [h2, h4]
  decide

/-- Claim C3: `export_fbx_and_zip` computes the Lite path
`exports/Duplex_House_Lite.fbx` but never exports it: the trace holds exactly
one FBX export (the FULL file), the zip receives exactly the two entries
`Duplex_House.fbx` and `README_Import.txt`, the Lite path is neither exported
nor archived, and the README written lists `Duplex_House_Lite.fbx` among the
included files. -/
theorem lite_fbx_never_exported (blendDir : FsPath) :
    LITE_FBX blendDir = EXPORT_DIR blendDir ++ ["Duplex_House_Lite.fbx"] ∧
    fbxExports (export_fbx_and_zip blendDir) = [(FULL_FBX blendDir, true)] ∧
    zipEntries (export_fbx_and_zip blendDir) =
      [(FULL_FBX blendDir, "Duplex_House.fbx"),
       (README_PATH blendDir, "README_Import.txt")] ∧
    writtenFiles (export_fbx_and_zip blendDir) = [(README_PATH blendDir, readmeContent)] ∧
    ((fbxExports (export_fbx_and_zip blendDir)).map Prod.fst).contains (LITE_FBX blendDir)
      = false ∧
    ((zipEntries (export_fbx_and_zip blendDir)).map Prod.fst).contains (LITE_FBX blendDir)
      = false ∧
    ∃ pre post : String, readmeContent = pre ++ "- Duplex_House_Lite.fbx (LITE)" ++ post := by
  have hfull : FULL_FBX blendDir ≠ LITE_FBX blendDir :=
    join_ne_of_ne (EXPORT_DIR blendDir) (by decide)
  have hread : README_PATH blendDir ≠ LITE_FBX blendDir :=
    join_ne_of_ne (EXPORT_DIR blendDir) (by decide)
  refine ⟨rfl, rfl, ?_, rfl, ?_, ?_, ?_⟩
  · simp [zipEntries, export_fbx_and_zip, os_path_basename, FULL_FBX, README_PATH,
      os_path_join, List.getLastD_concat]
  · simp [fbxExports, export_fbx_and_zip, List.contains_eq_any_beq]
    exact fun he => hfull he.symm
  · simp [zipEntries, export_fbx_and_zip, List.contains_eq_any_beq]
    exact ⟨fun he => hfull he.symm, fun he => hread he.symm⟩
  · exact ⟨"Duplex House FBX Export\n=======================\nFiles:\n- Duplex_House.fbx (FULL)\n", "\n", rfl⟩

set_option maxRecDepth 8000 in
/-- Claim C4: the only failure handling in the program is directory creation:
`ensure_dir` always succeeds, creating the directory when it is absent and
leaving the filesystem unchanged when it is present; `export_fbx_and_zip`
performs it first, before the FBX export; and no logical line of the script is
a `try`/`except`/`finally` header, so no other operation guards against or
recovers from failure. -/
theorem only_failure_handling_is_ensure_dir :
    (∀ (fs : List FsPath) (p : FsPath),
        ensure_dir fs p = Except.ok (if p ∈ fs then fs else fs ++ [p])) ∧
    (∀ (fs : List FsPath) (p : FsPath), p ∈ fs →
        ensure_dir fs p = Except.ok fs) ∧
    (∀ (fs : List FsPath) (p : FsPath), p ∉ fs →
        ensure_dir fs p = Except.ok (fs ++ [p])) ∧
    (∀ blendDir : FsPath,
        List.findIdx isEnsureDirEvent (export_fbx_and_zip blendDir) = 0 ∧
        List.findIdx isEnsureDirEvent (export_fbx_and_zip blendDir) <
          List.findIdx isExportFbxEvent (export_fbx_and_zip blendDir)) ∧
    srcLogicalLines.all (fun l => !l.tryHeader) = true := by
  have key : ∀ (fs : List FsPath) (p : FsPath),
      ensure_dir fs p = Except.ok (if p ∈ fs then fs else fs ++ [p]) := by
    intro fs p
    by_cases h : p ∈ fs <;>
      simp [ensure_dir, os_path_isdir, os_makedirs, h]
  have h0 : ∀ blendDir : FsPath,
      List.findIdx isEnsureDirEvent (export_fbx_and_zip blendDir) = 0 := fun _ => rfl
  have h2 : ∀ blendDir : FsPath,
      List.findIdx isExportFbxEvent (export_fbx_and_zip blendDir) = 2 := fun _ => rfl
  refine ⟨key, ?_, ?_, fun d => ⟨h0 d, by rw [h0 d, h2 d]; decide⟩, rfl⟩
  · intro fs p h
    simpa [h] using key fs p
  · intro fs p h
    simpa [h] using key fs p

/-- Witness for C4 at a concrete filesystem: the export directory is reused
when present and created when absent. -/
theorem only_failure_handling_is_ensure_dir_witness :
    (["a"] : FsPath) ∈ ([["a"]] : List FsPath) ∧
    ensure_dir [["a"]] ["a"] = Except.ok [["a"]] ∧
    (["b"] : FsPath) ∉ ([["a"]] : List FsPath) ∧
    ensure_dir [["a"]] ["b"] = Except.ok [["a"], ["b"]] :=
  ⟨by decide, only_failure_handling_is_ensure_dir.2.1 [["a"]] ["a"] (by decide),
   by decide, only_failure_handling_is_ensure_dir.2.2.1 [["a"]] ["b"] (by decide)⟩

/- ## Bezier fold helper lemmas -/

theorem set_append_cons (pre : List α) (b : α) (l : List α) (a : α) :
    (pre ++ b :: l).set pre.length a = pre ++ a :: l := by
  induction pre with
  | nil => rfl
  | cons x xs ih =>
    simp only [List.cons_append, List.length_cons, List.set_cons_succ]
    rw [ih]

theorem foldl_set_auto (ps : List Pt3) :
    ∀ (pre l0 : List BezierPoint), l0.length = ps.length →
      (pyEnumerate pre.length ps).foldl
          (fun bps ip => bps.set ip.1 (mkAutoPoint ip.2)) (pre ++ l0)
        = pre ++ ps.map mkAutoPoint := by
  induction ps with
  | nil =>
    intro pre l0 h
    have h0 : l0 = [] := List.length_eq_zero.mp h
    subst h0
    simp [pyEnumerate]
  | cons p ps ih =>
    intro pre l0 h
    cases l0 with
    | nil => simp at h
    | cons b l0 =>
      have hlen : l0.length = ps.length := by simpa using h
      have hstep : (pre ++ b :: l0).set pre.length (mkAutoPoint p)
          = (pre ++ [mkAutoPoint p]) ++ l0 := by
        rw [set_append_cons]
        simp
      have hidx : pre.length + 1 = (pre ++ [mkAutoPoint p]).length := by simp
      have step1 : (pyEnumerate pre.length (p :: ps)).foldl
            (fun bps ip => bps.set ip.1 (mkAutoPoint ip.2)) (pre ++ b :: l0)
          = (pyEnumerate (pre.length + 1) ps).foldl
            (fun bps ip => bps.set ip.1 (mkAutoPoint ip.2))
            ((pre ++ b :: l0).set pre.length (mkAutoPoint p)) := rfl
      rw [step1, hstep, hidx, ih _ _ hlen]
      simp

theorem bezier_points_of_ne_nil (pts : List Pt3) (hne : pts ≠ []) :
    (pyEnumerate 0 pts).foldl (fun bps ip => bps.set ip.1 (mkAutoPoint ip.2))
        ([defaultBezierPoint] ++ List.replicate (pts.length - 1) defaultBezierPoint)
      = pts.map mkAutoPoint := by
  have hpos : 0 < pts.length := List.length_pos.mpr hne
  have hlen : ([defaultBezierPoint] ++ List.replicate (pts.length - 1) defaultBezierPoint).length
      = pts.length := by
    simp
    omega
  simpa using foldl_set_auto pts [] _ hlen

/- ## World helper lemmas -/

theorem mathRadians45 : mathRadians 45 = Real.pi / 4 := by
  unfold mathRadians
  push_cast
  ring

theorem buildWorldValue_name (ws : List World) : (buildWorldValue ws).name = "World" := by
  have h : (buildWorldValue ws).name
      = ((findByName World.name ws "World").getD (newWorld "World")).name := rfl
  rw [h]
  cases hf : findByName World.name ws "World" with
  | none => rfl
  | some w => simpa using findByName_key hf

theorem buildWorldValue_tree (ws : List World) :
    (buildWorldValue ws).node_tree =
      { nodes := [⟨"ShaderNodeOutputWorld", [], 0⟩,
                  ⟨"ShaderNodeBackground", [("Strength", SockVal.scalar (12 / 10))], 0⟩,
                  ⟨"ShaderNodeTexSky", [], Real.pi / 4⟩],
        links := [⟨2, "Color", 1, "Color"⟩, ⟨1, "Background", 0, "Surface"⟩] } := by
  have h : (buildWorldValue ws).node_tree =
      { nodes := [⟨"ShaderNodeOutputWorld", [], 0⟩,
                  ⟨"ShaderNodeBackground", [("Strength", SockVal.scalar (12 / 10))], 0⟩,
                  ⟨"ShaderNodeTexSky", [], mathRadians 45⟩],
        links := [⟨2, "Color", 1, "Color"⟩, ⟨1, "Background", 0, "Surface"⟩] } := rfl
  rw [mathRadians45] at h
  exact h

/- ## Claim theorems C5-C10 -/

set_option maxHeartbeats 1600000 in
/-- Claim C5: for every non-empty list of `n` 3D points, `add_bezier_path`
produces a 3D curve with a single Bezier spline of exactly `n` control points
whose coordinates are the input points in input order, each with AUTO left and
right handles; `build_scene` invokes it with the 7 walkthrough points and the
5 aerial points, whose first and last points coincide, and the aerial curve is
then marked cyclic. -/
theorem add_bezier_path_spec :
    (∀ (name : String) (pts : List Pt3) (col : Option String), pts ≠ [] →
      (add_bezier_path name pts col).data.dimensions = "3D" ∧
      (add_bezier_path name pts col).data.splines.map Spline.type = [SplineType.BEZIER] ∧
      (add_bezier_path name pts col).data.splines.map Spline.bezier_points
        = [pts.map mkAutoPoint] ∧
      (add_bezier_path name pts col).data.splines.map
          (fun sp => sp.bezier_points.length) = [pts.length]) ∧
    walk_pts.length = 7 ∧
    aero_pts.length = 5 ∧
    aero_pts.head? = aero_pts.getLast? ∧
    ∀ s : Scene, ∃ wc ac : CurveObj,
      (build_scene s).curves = s.curves ++ [wc, ac] ∧
      wc.name = "Walkthrough_Path" ∧
      wc.data.splines.map Spline.bezier_points = [walk_pts.map mkAutoPoint] ∧
      ac.name = "Aerial_Spin_Path" ∧
      ac.data.splines.map Spline.bezier_points = [aero_pts.map mkAutoPoint] ∧
      ac.data.use_cyclic_u = true := by
  have hcore : ∀ (name : String) (pts : List Pt3) (col : Option String), pts ≠ [] →
      (add_bezier_path name pts col).data.splines.map Spline.bezier_points
        = [pts.map mkAutoPoint] := by
    intro name pts col hne
    show [(pyEnumerate 0 pts).foldl (fun bps ip => bps.set ip.1 (mkAutoPoint ip.2))
        ([defaultBezierPoint] ++ List.replicate (pts.length - 1) defaultBezierPoint)]
      = [pts.map mkAutoPoint]
    rw [bezier_points_of_ne_nil pts hne]
  refine ⟨?_, rfl, rfl, rfl, ?_⟩
  · intro name pts col hne
    refine ⟨rfl, rfl, hcore name pts col hne, ?_⟩
    show [((pyEnumerate 0 pts).foldl (fun bps ip => bps.set ip.1 (mkAutoPoint ip.2))
        ([defaultBezierPoint] ++ List.replicate (pts.length - 1) defaultBezierPoint)).length]
      = [pts.length]
    rw [bezier_points_of_ne_nil pts hne]
    simp
  · intro s
    refine ⟨_, _, rfl, rfl, ?_, rfl, ?_, rfl⟩
    · exact hcore "Walkthrough_Path" walk_pts (some "Cameras_Walkthrough")
        (List.cons_ne_nil _ _)
    · show [(pyEnumerate 0 aero_pts).foldl (fun bps ip => bps.set ip.1 (mkAutoPoint ip.2))
          ([defaultBezierPoint] ++ List.replicate (aero_pts.length - 1) defaultBezierPoint)]
        = [aero_pts.map mkAutoPoint]
      rw [bezier_points_of_ne_nil aero_pts (List.cons_ne_nil _ _)]

/-- Witness for C5 at a concrete two-point input. -/
theorem add_bezier_path_spec_witness :
    ([((0 : ℚ), (0 : ℚ), (0 : ℚ)), (1, 2, 3)] : List Pt3) ≠ [] ∧
    (add_bezier_path "P" [((0 : ℚ), (0 : ℚ), (0 : ℚ)), (1, 2, 3)] none).data.splines.map
        Spline.bezier_points
      = [[mkAutoPoint ((0 : ℚ), (0 : ℚ), (0 : ℚ)), mkAutoPoint ((1 : ℚ), (2 : ℚ), (3 : ℚ))]] :=
  ⟨by decide,
   (add_bezier_path_spec.1 "P" [((0 : ℚ), (0 : ℚ), (0 : ℚ)), (1, 2, 3)] none
      (by decide)).2.2.1⟩

set_option maxHeartbeats 1600000 in
/-- Claim C6: after `build_scene` configures the world, the world node graph
has exactly three nodes, a World Output, a Background with strength 1.2 and a
Sky Texture with sun elevation 45 degrees (pi/4 radians), and exactly two
links, Sky Color into Background Color and Background into Output Surface; the
result holds for every starting scene, since pre-existing world nodes are
removed first. -/
theorem world_shader_graph_spec (s : Scene) :
    (build_scene s).world = some "World" ∧
    findByName World.name (build_scene s).worlds "World"
      = some (buildWorldValue s.worlds) ∧
    (buildWorldValue s.worlds).use_nodes = true ∧
    (buildWorldValue s.worlds).node_tree.nodes =
      [⟨"ShaderNodeOutputWorld", [], 0⟩,
       ⟨"ShaderNodeBackground", [("Strength", SockVal.scalar (12 / 10))], 0⟩,
       ⟨"ShaderNodeTexSky", [], Real.pi / 4⟩] ∧
    (buildWorldValue s.worlds).node_tree.links =
      [⟨2, "Color", 1, "Color"⟩, ⟨1, "Background", 0, "Surface"⟩] := by
  refine ⟨rfl, ?_, rfl, ?_, ?_⟩
  · show findByName World.name
        (storeByName World.name s.worlds "World" (buildWorldValue s.worlds)) "World"
      = some (buildWorldValue s.worlds)
    exact findByName_storeByName s.worlds "World" _ (buildWorldValue_name s.worlds)
  · rw [buildWorldValue_tree]
  · rw [buildWorldValue_tree]

/-- Claim C7: `make_basic_material` always yields a material with exactly two
nodes, a Material Output and a Principled BSDF carrying the given base color,
metallic and roughness values, linked BSDF to Surface; an existing material of
that name is reused with its nodes removed first (no new datablock is
created), and a fresh one is appended otherwise. -/
theorem make_basic_material_spec (mats : List Material) (name : String)
    (bc : ℚ × ℚ × ℚ × ℚ) (met rough : ℚ) :
    (make_basic_material mats name bc met rough).2.name = name ∧
    (make_basic_material mats name bc met rough).2.use_nodes = true ∧
    (make_basic_material mats name bc met rough).2.node_tree.nodes =
      [⟨"ShaderNodeOutputMaterial", [], 0⟩,
       ⟨"ShaderNodeBsdfPrincipled",
         [("Base Color", SockVal.color bc), ("Metallic", SockVal.scalar met),
          ("Roughness", SockVal.scalar rough)], 0⟩] ∧
    (make_basic_material mats name bc met rough).2.node_tree.links =
      [⟨1, "BSDF", 0, "Surface"⟩] ∧
    findByName Material.name (make_basic_material mats name bc met rough).1 name
      = some (make_basic_material mats name bc met rough).2 ∧
    ((findByName Material.name mats name).isSome = true →
      (make_basic_material mats name bc met rough).1.map Material.name
        = mats.map Material.name) ∧
    ((findByName Material.name mats name).isSome = false →
      (make_basic_material mats name bc met rough).1
        = mats ++ [(make_basic_material mats name bc met rough).2]) := by
  have hname : (make_basic_material mats name bc met rough).2.name = name := by
    have h : (make_basic_material mats name bc met rough).2.name
        = ((findByName Material.name mats name).getD (newMaterial name)).name := rfl
    rw [h]
    cases hf : findByName Material.name mats name with
    | none => rfl
    | some m => simpa using findByName_key hf
  refine ⟨hname, rfl, rfl, rfl, ?_, ?_, ?_⟩
  · exact findByName_storeByName mats name _ hname
  · intro h
    exact storeByName_map_key mats name _ hname h
  · intro h
    have hnone : findByName Material.name mats name = none := by
      cases hf : findByName Material.name mats name with
      | none => rfl
      | some m => rw [hf] at h; simp at h
    exact storeByName_of_none mats name _ hnone

/-- Witness for C7: a fresh material is appended into an empty materials
collection, and an existing material of the same name is reused. -/
theorem make_basic_material_spec_witness :
    (findByName Material.name ([] : List Material) "M").isSome = false ∧
    (make_basic_material [] "M" (1, 0, 0, 1) 0 (1 / 2)).1
      = [] ++ [(make_basic_material [] "M" (1, 0, 0, 1) 0 (1 / 2)).2] ∧
    (findByName Material.name [newMaterial "M"] "M").isSome = true ∧
    (make_basic_material [newMaterial "M"] "M" (1, 0, 0, 1) 0 (1 / 2)).1.map Material.name
      = [newMaterial "M"].map Material.name :=
  ⟨rfl, (make_basic_material_spec [] "M" (1, 0, 0, 1) 0 (1 / 2)).2.2.2.2.2.2 rfl,
   rfl, (make_basic_material_spec [newMaterial "M"] "M" (1, 0, 0, 1) 0 (1 / 2)).2.2.2.2.2.1 rfl⟩

/-- Claim C8: `ensure_collection` is idempotent: an existing name returns the
collection with no state change; a fresh name is created and linked to the
given parent (or the scene root); the returned collection is the one named
`name`, and a second call with the same name changes nothing and returns the
same collection, so at most one collection per name is ever created. -/
theorem ensure_collection_idempotent (cols : BpyCollections) (name : String)
    (parent parent2 : Option String) :
    (name ∈ cols.names → ensure_collection cols name parent = (cols, name)) ∧
    (name ∉ cols.names →
      (ensure_collection cols name parent).1.names = cols.names ++ [name] ∧
      (ensure_collection cols name parent).1.links
        = cols.links ++ [(parent.getD sceneRootName, name)]) ∧
    (ensure_collection cols name parent).2 = name ∧
    name ∈ (ensure_collection cols name parent).1.names ∧
    ensure_collection (ensure_collection cols name parent).1 name parent2
      = ((ensure_collection cols name parent).1, name) := by
  have h2 : (ensure_collection cols name parent).2 = name := by
    by_cases h : name ∈ cols.names
    · simp [ensure_collection, h]
    · cases parent <;> simp [ensure_collection, h]
  have hmem : name ∈ (ensure_collection cols name parent).1.names := by
    by_cases h : name ∈ cols.names
    · simp [ensure_collection, h]
    · cases parent <;> simp [ensure_collection, h]
  refine ⟨fun h => by simp [ensure_collection, h], ?_, h2, hmem, ?_⟩
  · intro h
    cases parent <;> simp [ensure_collection, h]
  · simp [ensure_collection, hmem]
    intro hn
    exact absurd hmem hn

/-- Witness for C8: an existing collection is returned unchanged; a fresh one
is created and linked to its parent. -/
theorem ensure_collection_idempotent_witness :
    "A" ∈ (⟨["A"], []⟩ : BpyCollections).names ∧
    ensure_collection ⟨["A"], []⟩ "A" none = (⟨["A"], []⟩, "A") ∧
    "B" ∉ (⟨["A"], []⟩ : BpyCollections).names ∧
    (ensure_collection ⟨["A"], []⟩ "B" (some "A")).1.names = ["A"] ++ ["B"] ∧
    (ensure_collection ⟨["A"], []⟩ "B" (some "A")).1.links
      = [] ++ [((some "A").getD sceneRootName, "B")] :=
  ⟨by decide,
   (ensure_collection_idempotent ⟨["A"], []⟩ "A" none none).1 (by decide),
   by decide,
   ((ensure_collection_idempotent ⟨["A"], []⟩ "B" (some "A") none).2.1 (by decide)).1,
   ((ensure_collection_idempotent ⟨["A"], []⟩ "B" (some "A") none).2.1 (by decide)).2⟩

set_option maxHeartbeats 1600000 in
/-- Claim C9: `build_scene` sets the render settings to the fixed values:
Cycles on CPU, 256 samples, denoising, motion blur with shutter 0.5, 1920x1080
at 100 percent, 30 fps, frames 0 to 600, sRGB display with Filmic view, output
path `//renders/walkthrough_preview.mp4` with H264 codec in an MPEG-4
container, whatever the starting scene. -/
theorem render_settings_spec (s : Scene) :
    (build_scene s).render.engine = "CYCLES" ∧
    (build_scene s).cycles.device = "CPU" ∧
    (build_scene s).cycles.samples = 256 ∧
    (build_scene s).cycles.use_denoising = true ∧
    (build_scene s).render.use_motion_blur = true ∧
    (build_scene s).render.motion_blur_shutter = 1 / 2 ∧
    (build_scene s).render.resolution_x = 1920 ∧
    (build_scene s).render.resolution_y = 1080 ∧
    (build_scene s).render.resolution_percentage = 100 ∧
    (build_scene s).render.fps = 30 ∧
    (build_scene s).frame_start = 0 ∧
    (build_scene s).frame_end = 600 ∧
    (build_scene s).display_device = "sRGB" ∧
    (build_scene s).view_transform = "Filmic" ∧
    (build_scene s).render.filepath = "//renders/walkthrough_preview.mp4" ∧
    (build_scene s).render.ffmpeg_codec = "H264" ∧
    (build_scene s).render.ffmpeg_format = "MPEG4" ∧
    (build_scene s).render.file_format = "FFMPEG" :=
  ⟨rfl, rfl, rfl, rfl, rfl, rfl, rfl, rfl, rfl, rfl, rfl, rfl, rfl, rfl, rfl, rfl, rfl, rfl⟩

/-- Claim C10: `assign_material` touches only the first material slot: with no
data or no materials attribute the object is unchanged; with an empty slot
list exactly one slot holding the material is appended; otherwise slot 0 is
replaced and every other slot (and the slot count) is unchanged. -/
theorem assign_material_spec (obj : BObject) (m : String) :
    (obj.data = none → assign_material obj m = obj) ∧
    (∀ dat : ObjData, obj.data = some dat → dat.materials = none →
        assign_material obj m = obj) ∧
    (∀ dat : ObjData, obj.data = some dat → dat.materials = some [] →
        assign_material obj m
          = { obj with data := some { dat with materials := some [m] } }) ∧
    (∀ (dat : ObjData) (ms : List String), obj.data = some dat →
        dat.materials = some ms → ms ≠ [] →
        assign_material obj m
          = { obj with data := some { dat with materials := some (ms.set 0 m) } } ∧
        (ms.set 0 m).length = ms.length ∧
        ∀ i : Nat, i ≠ 0 → (ms.set 0 m)[i]? = ms[i]?) := by
  refine ⟨?_, ?_, ?_, ?_⟩
  · intro h
    simp [assign_material, h]
  · intro dat h hm
    simp [assign_material, h, hm]
  · intro dat h hm
    simp [assign_material, h, hm]
  · intro dat ms h hm hne
    have hlen : ¬ms.length = 0 := fun h0 => hne (List.length_eq_zero.mp h0)
    refine ⟨by simp [assign_material, h, hm, hlen], by simp, ?_⟩
    intro i hi
    exact List.getElem?_set_ne (fun he => hi he.symm)

/-- Witness for C10: an object without data is unchanged; on an object with
two slots only slot 0 is replaced. -/
theorem assign_material_spec_witness :
    ({ name := "o", data := none } : BObject).data = none ∧
    assign_material { name := "o", data := none } "M" = { name := "o", data := none } ∧
    assign_material { name := "c", data := some { materials := some ["A", "B"] } } "M"
      = { name := "c", data := some { materials := some ["M", "B"] } } :=
  ⟨rfl,
   (assign_material_spec { name := "o", data := none } "M").1 rfl,
   ((assign_material_spec { name := "c", data := some { materials := some ["A", "B"] } }
      "M").2.2.2 { materials := some ["A", "B"] } ["A", "B"] rfl rfl (by decide)).1⟩

end BuildExport
